import Mathlib

/-!
Verification development for the MegalithLabs x402 payment SDK.

This file shallowly embeds the payment-protocol engine of the repository:
the token capability prober, amount/decimal conversion, the payer retry
orchestrators (`x402Fetch` / `x402Axios`), the payment-authorization
builders (EIP-3009 and proxied ERC-20 paths), the payee middleware
variants (`src/unnamed/part_000` and `src/sdk/payee.js`), the route
pattern compiler, and the facilitator settlement payload builder.

Network and chain reads (RPC calls, the facilitator HTTP API, signing,
randomness, the clock) are modelled as explicit oracle parameters; all
control flow, data construction and string processing is translated
directly from the JavaScript source.
-/

namespace X402

/-! ## JavaScript-truthiness helpers

JavaScript `a || b` picks `b` when `a` is `undefined`, `null`, `""` or `0`.
We model absent object fields as `Option.none` and mirror the falsiness of
the empty string and of zero. -/

/-- JS truthiness of an optional string: `undefined`/missing and `""` are falsy. -/
def jsTruthyS : Option String → Bool
  | none => false
  | some s => s != ""

/-- JS `a || b` on two optional string fields (used for `payment.network || config.network`). -/
def jsStrOr (a b : Option String) : Option String :=
  if jsTruthyS a then a else b

/-- JS `a || d` on an optional string with a definite default. -/
def jsOrStr (a : Option String) (d : String) : String :=
  match a with
  | some s => if s == "" then d else s
  | none => d

/-- JS `a || d` on an optional number field with a definite default (0 is falsy). -/
def jsOrNat (a : Option Nat) (d : Nat) : Nat :=
  match a with
  | some n => if n == 0 then d else n
  | none => d

/-! ## Decimal-string parsing (`ethers.parseUnits`, `parseFloat`) -/

/-- Numeric value of a digit list, most significant first. -/
def digitsToNat (ds : List Char) : Nat :=
  ds.foldl (fun n c => n * 10 + (c.toNat - 48)) 0

/-- Split a character list at every dot (the grouping `"…".split('.')`
performs inside `ethers.parseUnits`). -/
def splitOnDot : List Char → List (List Char)
  | [] => [[]]
  | c :: rest =>
    if c = '.' then [] :: splitOnDot rest
    else
      match splitOnDot rest with
      | [] => [[c]]
      | g :: gs => (c :: g) :: gs

/-- `ethers.parseUnits s decimals`: parse a non-negative decimal string into
atomic units. Fails (ethers throws) on empty/invalid strings or when the
fraction has more digits than `decimals`. -/
def parseUnits (s : String) (decimals : Nat) : Option Nat :=
  match splitOnDot s.toList with
  | [i] =>
    if i ≠ [] ∧ i.all Char.isDigit then
      some (digitsToNat i * 10 ^ decimals)
    else none
  | [i, f] =>
    if i ≠ [] ∧ i.all Char.isDigit ∧ f ≠ [] ∧ f.all Char.isDigit
        ∧ f.length ≤ decimals then
      some (digitsToNat i * 10 ^ decimals
            + digitsToNat f * 10 ^ (decimals - f.length))
    else none
  | _ => none

/-- JS `parseFloat` restricted to the shapes the SDK feeds it: a leading
run of digits, optionally followed by `.` and more digits.  Returns `none`
for `NaN`. -/
def parseFloatQ (s : String) : Option ℚ :=
  let cs := s.toList
  let intPart := cs.takeWhile Char.isDigit
  if intPart.isEmpty then none
  else
    let rest := cs.drop intPart.length
    match rest with
    | '.' :: frac0 =>
      let frac := frac0.takeWhile Char.isDigit
      some ((digitsToNat intPart : ℚ)
            + (digitsToNat frac : ℚ) / (10 : ℚ) ^ frac.length)
    | _ => some (digitsToNat intPart : ℚ)

/-- JS `String.prototype.replace` with a plain-string pattern replaces only
the first occurrence; used for `priceStr.replace('$', '')`. -/
def removeFirstDollar (s : String) : String :=
  let cs := s.toList
  let rec go : List Char → List Char
    | [] => []
    | c :: rest => if c = '$' then rest else c :: go rest
  String.mk (go cs)

/-! ## Token capability prober (`src/sdk/utils.js` `isEIP3009Token`,
`src/sdk/payer.js` `getTokenDetailsEthers`)

The probe issues a read-only `authorizationState(address, randomNonce)`
call; we model the RPC outcome as an `Except` value produced by the chain. -/

/-- Outcome of the read-only `authorizationState` probe call: `.ok b` when
the call returns (any boolean), `.error e` on revert / missing method /
transport failure. -/
abbrev ProbeCall := Except String Bool

/-- `isEIP3009Token` (src/sdk/utils.js lines 55-63): `try { await
tokenContract.authorizationState(address, testNonce); return true } catch
{ return false }`. -/
def isEIP3009Token (callResult : ProbeCall) : Bool :=
  match callResult with
  | .ok _ => true
  | .error _ => false

/-- The two payment schemes of the data model. -/
inductive Scheme where
  | native
  | proxied
deriving DecidableEq, Repr

/-- Scheme classification derived from the probe, as all call sites use it:
probe success selects the EIP-3009 (`Native`) path, any failure the
Stargate proxy (`Proxied`) path. -/
def schemeOfProbe (callResult : ProbeCall) : Scheme :=
  if isEIP3009Token callResult then .native else .proxied

/-- Token details as returned by `getTokenDetailsEthers`
(src/sdk/payer.js lines 356-385). -/
structure TokenDetails where
  tokenName : String
  tokenVersion : String
  isEIP3009 : Bool
deriving DecidableEq, Repr

/-- `getTokenDetailsEthers` (src/sdk/payer.js lines 356-385): name fetch
failure is fatal; version fetch failure falls back to "1"; the
`authorizationState` probe decides `isEIP3009`. -/
def getTokenDetailsEthers (nameRes : Except String String)
    (versionRes : Except String String) (probeRes : ProbeCall) :
    Except String TokenDetails :=
  match nameRes with
  | .error _ => .error "Failed to get token name"
  | .ok n =>
    let v := match versionRes with
      | .ok v => v
      | .error _ => "1"
    let is3009 := match probeRes with
      | .ok _ => true
      | .error _ => false
    .ok ⟨n, v, is3009⟩

/-! ## Payer retry orchestrators (`src/sdk/payer.js` `x402Fetch` / `x402Axios`)

An HTTP response is modelled by its status and (for 402 responses) the
payment requirements the orchestrator extracts from the parsed JSON body
(`paymentRequired.paymentRequirements || paymentRequired`). -/

/-- Requirements fields the payer orchestrator reads from a 402 body.
`maxAmountRequired` is `none` when the field is missing (the code defaults
it with `|| '0'`); present values are atomic token units. -/
structure PayerRequirements where
  asset : String
  maxAmountRequired : Option Nat
  payTo : String
deriving DecidableEq, Repr

/-- An HTTP response as the payer orchestrator sees it. -/
structure HttpResponse where
  status : Nat
  requirements : PayerRequirements
deriving DecidableEq, Repr

/-- The requested amount as a decimal quantity:
`parseFloat(ethers.formatUnits(requirements.maxAmountRequired || '0', decimals))`,
with `decimals` from the (cached) on-chain lookup `decimalsOf`. -/
def requestedAmount (decimalsOf : String → Nat) (reqs : PayerRequirements) : ℚ :=
  ((reqs.maxAmountRequired.getD 0 : ℚ)) / (10 : ℚ) ^ decimalsOf reqs.asset

/-- Rendering of a decimal amount used in the ceiling error message. -/
def ratStr (q : ℚ) : String :=
  if q.den = 1 then toString q.num else toString q.num ++ "/" ++ toString q.den

/-- The message of the spending-ceiling error:
``throw new Error(`Payment amount ${amount} exceeds maxAmount ${maxAmount}`)``.
It textually contains both the requested amount and the ceiling. -/
def ceilingErrorMessage (requested ceiling : ℚ) : String :=
  "Payment amount " ++ ratStr requested ++ " exceeds maxAmount " ++ ratStr ceiling

/-- Result of one wrapped `x402Fetch` call. -/
inductive FetchOutcome where
  | success (resp : HttpResponse)
  | ceilingError (requested ceiling : ℚ)
deriving DecidableEq, Repr

/-- The error message carried by a failed outcome, if any. -/
def FetchOutcome.errMessage : FetchOutcome → Option String
  | .success _ => none
  | .ceilingError r c => some (ceilingErrorMessage r c)

/-- Trace of one logical `fetchWithPayment` call: the outcome plus how many
outbound `fetch` attempts were issued and how many times the authorization
builder `createPayment` ran. -/
structure FetchRun where
  outcome : FetchOutcome
  fetchCalls : Nat
  createPaymentCalls : Nat
deriving DecidableEq, Repr

/-- `fetchWithPayment` (src/sdk/payer.js lines 117-151).  `r1` is the
response of the initial request and `r2` the response of the (at most one)
retry carrying the `X-PAYMENT` header; `decimalsOf` is the on-chain
decimals lookup; `maxAmount` the caller's ceiling (default 0.10). -/
def fetchWithPayment (maxAmount : ℚ) (decimalsOf : String → Nat)
    (r1 r2 : HttpResponse) : FetchRun :=
  if r1.status ≠ 402 then
    ⟨.success r1, 1, 0⟩
  else
    let amount := requestedAmount decimalsOf r1.requirements
    if amount > maxAmount then
      ⟨.ceilingError amount maxAmount, 1, 0⟩
    else
      ⟨.success r2, 2, 1⟩

/-- Final state of an `x402Axios` logical call. -/
inductive AxiosFinal where
  | fulfilled (resp : HttpResponse)
  | ceilingError (requested ceiling : ℚ)
  | fuelExhausted
deriving DecidableEq, Repr

/-- Trace of an `x402Axios` logical call: final state, number of outbound
attempts issued, and number of payment authorizations created. -/
structure AxiosRun where
  final : AxiosFinal
  attempts : Nat
  payments : Nat
deriving DecidableEq, Repr

/-- `x402Axios` (src/sdk/payer.js lines 169-203).  The response interceptor
is registered on the axios instance and the 402 handler retries via
`axiosInstance.request(config)`, which dispatches through the same
interceptor chain again; there is no already-retried flag.  `server n` is
the response to the `n`-th outbound attempt.  `fuel` bounds the recursion
only so the model is total: the source itself has no such bound. -/
def x402AxiosModel (maxAmount : ℚ) (decimalsOf : String → Nat)
    (server : Nat → HttpResponse) : Nat → Nat → Nat → AxiosRun
  | fuel, n, payments =>
    let r := server n
    if r.status ≠ 402 then
      ⟨.fulfilled r, n + 1, payments⟩
    else
      let amount := requestedAmount decimalsOf r.requirements
      if amount > maxAmount then
        ⟨.ceilingError amount maxAmount, n + 1, payments⟩
      else
        match fuel with
        | 0 => ⟨.fuelExhausted, n + 1, payments + 1⟩
        | fuel' + 1 => x402AxiosModel maxAmount decimalsOf server fuel' (n + 1) (payments + 1)

/-! ## Authorization builders

`createPayment` in src/sdk/payer.js (lines 209-350), the
`X402Client._createEIP3009Payment` / `_createERC20Payment` methods in
src/sdk/payee.js (lines 464-589), and the standalone signer script
(src/Signer/signer.js lines 141-330).  Chain reads (token details,
stargate address, allowance, nonce), randomness and the clock are oracle
parameters; typed-data construction is translated field by field. -/

/-- An EIP-712 signing domain. -/
structure EIP712Domain where
  name : String
  version : String
  chainId : Nat
  verifyingContract : String
deriving DecidableEq, Repr

/-- Message of the EIP-3009 `TransferWithAuthorization` struct. -/
structure NativeMessage where
  from_ : String
  to_ : String
  value : Nat
  validAfter : Int
  validBefore : Int
  nonce : String
deriving DecidableEq, Repr

/-- Message of the Stargate `ERC20Payment` struct. -/
structure ProxiedMessage where
  token : String
  from_ : String
  to_ : String
  value : Nat
  nonce : Nat
  validAfter : Int
  validBefore : Int
deriving DecidableEq, Repr

/-- The typed data handed to `signer.signTypedData`: domain, the ordered
field schema (name/type pairs, in declaration order), and the message. -/
inductive TypedData where
  | native (domain : EIP712Domain) (schema : List (String × String)) (msg : NativeMessage)
  | proxied (domain : EIP712Domain) (schema : List (String × String)) (msg : ProxiedMessage)
deriving DecidableEq, Repr

/-- Field schema of `TransferWithAuthorization` as written in the source. -/
def nativeSchema : List (String × String) :=
  [("from", "address"), ("to", "address"), ("value", "uint256"),
   ("validAfter", "uint256"), ("validBefore", "uint256"), ("nonce", "bytes32")]

/-- Field schema of `ERC20Payment` as written in the source. -/
def proxiedSchema : List (String × String) :=
  [("token", "address"), ("from", "address"), ("to", "address"),
   ("value", "uint256"), ("nonce", "uint256"),
   ("validAfter", "uint256"), ("validBefore", "uint256")]

/-- The `authorization` object placed in the x402 payload; `nonce` is the
hex bytes32 for the native path or the decimal proxy counter rendered with
`toString()` for the proxied path. -/
structure Authorization where
  from_ : String
  to_ : String
  value : String
  validAfter : Int
  validBefore : Int
  nonce : String
deriving DecidableEq, Repr

/-- The x402 payment envelope produced by `createPayment`. -/
structure X402Payload where
  x402Version : Nat
  scheme : String
  network : String
  authorization : Authorization
deriving DecidableEq, Repr

/-- Signer facts read by `createPayment`: `signer.getNetwork()` and
`signer.getAddress()`. -/
structure SignerInfo where
  networkName : String
  chainId : Nat
  address : String
deriving DecidableEq, Repr

/-- Result of `createPayment`: the typed data signed plus the wire payload,
or the insufficient-allowance error of the proxied path. -/
inductive CreatePaymentResult where
  | ok (typed : TypedData) (payload : X402Payload)
  | insufficientAllowance (required current : Nat)
deriving DecidableEq, Repr

/-- `createPayment` (src/sdk/payer.js lines 209-350).  Inputs beyond the
requirements: the probed token details, the stargate address fetched from
the facilitator, the current allowance and proxy nonce reads, the random
bytes32 `randomNonce`, and the clock value `now` (unix seconds). -/
def createPayment (signer : SignerInfo) (reqs : PayerRequirements)
    (details : TokenDetails) (stargateAddress : String)
    (allowance : Nat) (stargateNonce : Nat) (randomNonce : String)
    (now : Int) : CreatePaymentResult :=
  let value := reqs.maxAmountRequired.getD 0
  let validAfter := now - 60
  let validBefore := now + 3600
  if details.isEIP3009 then
    let domain : EIP712Domain :=
      ⟨details.tokenName, details.tokenVersion, signer.chainId, reqs.asset⟩
    let msg : NativeMessage :=
      ⟨signer.address, reqs.payTo, value, validAfter, validBefore, randomNonce⟩
    .ok (.native domain nativeSchema msg)
      ⟨1, "exact", signer.networkName,
       ⟨signer.address, reqs.payTo, toString value, validAfter, validBefore, randomNonce⟩⟩
  else
    if allowance < value then
      .insufficientAllowance value allowance
    else
      let domain : EIP712Domain := ⟨"Megalith", "1", signer.chainId, stargateAddress⟩
      let msg : ProxiedMessage :=
        ⟨reqs.asset, signer.address, reqs.payTo, value, stargateNonce, validAfter, validBefore⟩
      .ok (.proxied domain proxiedSchema msg)
        ⟨1, "exact", signer.networkName,
         ⟨signer.address, reqs.payTo, toString value, validAfter, validBefore,
          toString stargateNonce⟩⟩

/-- `X402Client._createEIP3009Payment` (src/sdk/payee.js lines 464-515):
always succeeds once reached (balance was already checked). -/
def clientCreateEIP3009 (chainId : Nat) (walletAddress toAddress tokenAddress : String)
    (tokenName tokenVersion : String) (value : Nat) (randomNonce : String)
    (now : Int) : TypedData × Authorization :=
  let validAfter := now - 60
  let validBefore := now + 3600
  let domain : EIP712Domain := ⟨tokenName, tokenVersion, chainId, tokenAddress⟩
  let msg : NativeMessage :=
    ⟨walletAddress, toAddress, value, validAfter, validBefore, randomNonce⟩
  (.native domain nativeSchema msg,
   ⟨walletAddress, toAddress, toString value, validAfter, validBefore, randomNonce⟩)

/-- `X402Client._createERC20Payment` (src/sdk/payee.js lines 521-589):
throws when the Stargate allowance is below the value, otherwise signs the
`ERC20Payment` struct with the nonce read from the Stargate contract. -/
def clientCreateERC20 (chainId : Nat) (walletAddress toAddress tokenAddress : String)
    (stargateAddress : String) (allowance stargateNonce value : Nat)
    (now : Int) : Except String (TypedData × Authorization) :=
  if allowance < value then
    .error "Insufficient Stargate approval"
  else
    let validAfter := now - 60
    let validBefore := now + 3600
    let domain : EIP712Domain := ⟨"Megalith", "1", chainId, stargateAddress⟩
    let msg : ProxiedMessage :=
      ⟨tokenAddress, walletAddress, toAddress, value, stargateNonce, validAfter, validBefore⟩
    .ok (.proxied domain proxiedSchema msg,
         ⟨walletAddress, toAddress, toString value, validAfter, validBefore,
          toString stargateNonce⟩)

/-- The standalone signer script (src/Signer/signer.js lines 141-330):
computes `now`, `validAfter = now - 60`, `validBefore = now + 3600` once,
then branches on the probed token type to build either authorization. -/
def signerScriptAuthorization (isEIP3009 : Bool) (chainId : Nat)
    (walletAddress toAddress tokenAddress stargateAddress : String)
    (tokenName tokenVersion : String)
    (value : Nat) (randomNonce : String) (stargateNonce : Nat)
    (now : Int) : TypedData × Authorization :=
  let validAfter := now - 60
  let validBefore := now + 3600
  if isEIP3009 then
    (.native ⟨tokenName, tokenVersion, chainId, tokenAddress⟩ nativeSchema
       ⟨walletAddress, toAddress, value, validAfter, validBefore, randomNonce⟩,
     ⟨walletAddress, toAddress, toString value, validAfter, validBefore, randomNonce⟩)
  else
    (.proxied ⟨"Megalith", "1", chainId, stargateAddress⟩ proxiedSchema
       ⟨tokenAddress, walletAddress, toAddress, value, stargateNonce, validAfter, validBefore⟩,
     ⟨walletAddress, toAddress, toString value, validAfter, validBefore,
      toString stargateNonce⟩)

/-! ## Route pattern compilation (`compileRoutes` / `findMatchingRoute`)

`src/unnamed/part_000` lines 432-451 (identical in the other middleware
variants):

`new RegExp('^' + pattern.replace(/\x2a/g, '.*').replace(/:[^\x2f]+/g, '[^/]+') + '$')`

The two replaces rewrite every star to `.*` and every `:param` segment to
`[^/]+`; every other character is passed to the regex engine unescaped.
We embed the string rewriting exactly, then interpret the produced regex
source in the fragment the rewrites generate: literal characters, `.`,
`.*` and `[^/]+` (patterns using other regex metacharacters are outside
this interpreter, which suffices for the properties proved below, where
`.` from the pattern itself stays an active metacharacter). -/

/-- `pattern.replace(/\x2a/g, '.*')`: every star becomes `.*`. -/
def replaceStarAll : List Char → List Char
  | [] => []
  | c :: rest => if c = '*' then '.' :: '*' :: replaceStarAll rest
                 else c :: replaceStarAll rest

/-- `s.replace(/:[^\x2f]+/g, '[^/]+')`: each maximal run `:xyz` (at least one
character that is not a slash after the colon) becomes the class `[^/]+`.
The flag records being inside a run whose replacement is already emitted. -/
def replaceParamGo : Bool → List Char → List Char
  | _, [] => []
  | true, c :: rest =>
    if c = '/' then c :: replaceParamGo false rest
    else replaceParamGo true rest
  | false, c :: rest =>
    if c = ':' then
      match rest with
      | [] => [':']
      | d :: _ =>
        if d = '/' then ':' :: replaceParamGo false rest
        else '[' :: '^' :: '/' :: ']' :: '+' :: replaceParamGo true rest
    else c :: replaceParamGo false rest

/-- The regex source built by `compileRoutes` for a pattern, anchors included. -/
def regexSourceOf (pattern : String) : String :=
  "^" ++ String.mk (replaceParamGo false (replaceStarAll pattern.toList)) ++ "$"

/-- Tokens of the regex fragment produced by the route rewrites. -/
inductive RTok where
  | lit (c : Char)
  | dot
  | dotStar
  | notSlashPlus
deriving DecidableEq, Repr

/-- Tokenize the (anchor-free) regex source: `.*` → any-run, `.` → any-char,
`[^/]+` → non-slash-run, everything else a literal. -/
def lexRegex : List Char → List RTok
  | [] => []
  | '.' :: '*' :: rest => .dotStar :: lexRegex rest
  | '[' :: '^' :: '/' :: ']' :: '+' :: rest => .notSlashPlus :: lexRegex rest
  | '.' :: rest => .dot :: lexRegex rest
  | c :: rest => .lit c :: lexRegex rest

/-- Fuel-bounded matcher kernel: every recursive call strictly decreases
`ts.length + s.length`, so `rmatch` below supplies sufficient fuel and the
bound never bites; fuel only keeps the recursion structural. -/
def rmatchF : Nat → List RTok → List Char → Bool
  | 0, _, _ => false
  | fuel + 1, ts, s =>
    match ts, s with
    | [], [] => true
    | [], _ :: _ => false
    | .lit _ :: _, [] => false
    | .lit c :: ts', x :: xs => c = x && rmatchF fuel ts' xs
    | .dot :: _, [] => false
    | .dot :: ts', _ :: xs => rmatchF fuel ts' xs
    | .dotStar :: ts', xs =>
      rmatchF fuel ts' xs ||
        (match xs with
         | [] => false
         | _ :: rest => rmatchF fuel (.dotStar :: ts') rest)
    | .notSlashPlus :: _, [] => false
    | .notSlashPlus :: ts', x :: xs =>
      x ≠ '/' && (rmatchF fuel ts' xs || rmatchF fuel (.notSlashPlus :: ts') xs)

/-- Anchored matching of the token list against a path (`regex.test(path)`
with the `^`/`$` anchors realized as whole-string matching). -/
def rmatch (ts : List RTok) (s : List Char) : Bool :=
  rmatchF (ts.length + s.length + 1) ts s

/-- A compiled route: the original pattern, its regex tokens, and the config. -/
structure CompiledRoute (Cfg : Type) where
  pattern : String
  toks : List RTok
  config : Cfg
deriving DecidableEq

/-- `compileRoutes` (src/unnamed/part_000 lines 432-438). -/
def compileRoutes {Cfg : Type} (routes : List (String × Cfg)) : List (CompiledRoute Cfg) :=
  routes.map fun (p, cfg) =>
    ⟨p, lexRegex (replaceParamGo false (replaceStarAll p.toList)), cfg⟩

/-- `findMatchingRoute` (src/unnamed/part_000 lines 444-451): first route in
declaration order whose regex accepts the path. -/
def findMatchingRoute {Cfg : Type} (path : String) (routePatterns : List (CompiledRoute Cfg)) :
    Option (CompiledRoute Cfg) :=
  routePatterns.find? fun route => rmatch route.toks path.toList

/-- Number of positions where two strings of equal length differ. -/
def countDiffs (a b : String) : Nat :=
  (List.zip a.toList b.toList).countP fun (x, y) => x ≠ y

/-! ## Payload codec: base64 and JSON

The sdk middleware decodes the payment header with
`JSON.parse(Buffer.from(paymentHeader, 'base64').toString())` —
`Buffer.from` is lenient (characters outside the base64 alphabet are
skipped), while `JSON.parse` throws on anything that is not JSON.  The
part_000 middleware instead calls `parsePaymentHeader` (imported from its
`./utils`, whose source is not in this snapshot) which per the spec must
reject malformed base64, malformed JSON and envelopes missing required
fields, returning a typed error instead of throwing.

The JSON model covers the fragment the envelopes use: objects, arrays,
strings without escape sequences, non-negative and negative integers,
booleans and null. -/

/-- Value of a base64 alphabet character. -/
def b64Val (c : Char) : Option Nat :=
  if 'A' ≤ c ∧ c ≤ 'Z' then some (c.toNat - 65)
  else if 'a' ≤ c ∧ c ≤ 'z' then some (c.toNat - 97 + 26)
  else if '0' ≤ c ∧ c ≤ '9' then some (c.toNat - 48 + 52)
  else if c = '+' then some 62
  else if c = '/' then some 63
  else none

/-- Reassemble bytes from 6-bit groups, as `Buffer.from(·, 'base64')` does;
a trailing single group yields no byte. -/
def b64Bytes : List Nat → List Nat
  | a :: b :: c :: d :: rest =>
    (a * 4 + b / 16) :: ((b % 16) * 16 + c / 4) :: ((c % 4) * 64 + d) :: b64Bytes rest
  | [a, b] => [a * 4 + b / 16]
  | [a, b, c] => [a * 4 + b / 16, (b % 16) * 16 + c / 4]
  | _ => []

/-- Lenient base64 decoding (Node's `Buffer.from(s, 'base64').toString()`):
non-alphabet characters are skipped, leftover groups truncated. -/
def b64DecodeLenient (s : String) : String :=
  String.mk ((b64Bytes (s.toList.filterMap b64Val)).map Char.ofNat)

/-- Strict base64 well-formedness (used by the spec-modelled codec): a
nonempty string of alphabet characters, length a multiple of four, with at
most two trailing padding characters. -/
def base64WellFormed (s : String) : Bool :=
  let cs := s.toList
  let core := cs.takeWhile fun c => (b64Val c).isSome
  let pad := cs.drop core.length
  s.length % 4 == 0 && s.length > 0 && pad.all (· = '=') && pad.length ≤ 2

/-- JSON values (escape-free string fragment). -/
inductive Json where
  | null
  | bool (b : Bool)
  | num (n : Int)
  | str (s : String)
  | arr (elems : List Json)
  | obj (fields : List (String × Json))

/-- Parse the body of a JSON string literal after the opening quote. -/
def pStrBody : List Char → List Char → Option (String × List Char)
  | [], _ => none
  | c :: rest, acc =>
    if c = '"' then some (String.mk acc.reverse, rest)
    else if c = '\\' then none
    else pStrBody rest (c :: acc)

/-- Skip JSON whitespace. -/
def skipWs (s : List Char) : List Char :=
  s.dropWhile fun c => c = ' ' ∨ c = '\n' ∨ c = '\t' ∨ c = '\r'

/-- Parse a run of digits. -/
def pDigits (s : List Char) : Option (Nat × List Char) :=
  let ds := s.takeWhile Char.isDigit
  if ds.isEmpty then none
  else some (digitsToNat ds, s.drop ds.length)

mutual

/-- Parse one JSON value (fuel-bounded recursive descent). -/
def pVal : Nat → List Char → Option (Json × List Char)
  | 0, _ => none
  | fuel + 1, s =>
    match skipWs s with
    | 'n' :: 'u' :: 'l' :: 'l' :: rest => some (.null, rest)
    | 't' :: 'r' :: 'u' :: 'e' :: rest => some (.bool true, rest)
    | 'f' :: 'a' :: 'l' :: 's' :: 'e' :: rest => some (.bool false, rest)
    | '"' :: rest => (pStrBody rest []).map fun (str, r) => (.str str, r)
    | '[' :: rest =>
      match skipWs rest with
      | ']' :: r2 => some (.arr [], r2)
      | _ => pElems fuel rest []
    | '{' :: rest =>
      match skipWs rest with
      | '}' :: r2 => some (.obj [], r2)
      | _ => pFields fuel rest []
    | '-' :: rest => (pDigits rest).map fun (n, r) => (.num (-(n : Int)), r)
    | c :: rest =>
      if c.isDigit then (pDigits (c :: rest)).map fun (n, r) => (.num (n : Int), r)
      else none
    | [] => none

/-- Parse the remaining elements of a JSON array. -/
def pElems : Nat → List Char → List Json → Option (Json × List Char)
  | 0, _, _ => none
  | fuel + 1, s, acc =>
    match pVal fuel s with
    | none => none
    | some (v, rest) =>
      match skipWs rest with
      | ',' :: r2 => pElems fuel r2 (acc ++ [v])
      | ']' :: r2 => some (.arr (acc ++ [v]), r2)
      | _ => none

/-- Parse the remaining fields of a JSON object. -/
def pFields : Nat → List Char → List (String × Json) → Option (Json × List Char)
  | 0, _, _ => none
  | fuel + 1, s, acc =>
    match skipWs s with
    | '"' :: rest =>
      match pStrBody rest [] with
      | none => none
      | some (key, r1) =>
        match skipWs r1 with
        | ':' :: r2 =>
          match pVal fuel r2 with
          | none => none
          | some (v, r3) =>
            match skipWs r3 with
            | ',' :: r4 => pFields fuel r4 (acc ++ [(key, v)])
            | '}' :: r4 => some (.obj (acc ++ [(key, v)]), r4)
            | _ => none
        | _ => none
    | _ => none

end

/-- `JSON.parse`: the whole input must be one JSON value. -/
def jsonParse (s : String) : Option Json :=
  match pVal (2 * s.length + 4) s.toList with
  | some (v, rest) => if (skipWs rest).isEmpty then some v else none
  | none => none

/-- Field lookup on a JSON object (last duplicate wins, as in `JSON.parse`). -/
def Json.getField : Json → String → Option Json
  | .obj fields, k => fields.reverse.lookup k
  | _, _ => none

/-- The string value of a JSON node, when it is a string. -/
def Json.getStr : Json → Option String
  | .str s => some s
  | _ => none

/-- The decoded payment envelope as the payee middleware uses it: the only
field it reads is `payment.network`. -/
structure Payment where
  network : Option String
deriving DecidableEq, Repr

/-- Extract the `network` field of a decoded envelope. -/
def paymentOfJson (j : Json) : Payment :=
  ⟨(j.getField "network").bind Json.getStr⟩

/-- sdk middleware header decoding (src/sdk/payee.js line 49):
`JSON.parse(Buffer.from(paymentHeader, 'base64').toString())`; `none`
models the thrown `SyntaxError`. -/
def sdkDecodeHeader (h : String) : Option Payment :=
  (jsonParse (b64DecodeLenient h)).map paymentOfJson

/-- The message of the exception `JSON.parse` throws on malformed input. -/
def jsonParseErrorMessage : String := "Unexpected token in JSON"

/-- Result of `parsePaymentHeader`. -/
inductive ParseResult where
  | ok (p : Payment)
  | err (msg : String)
deriving DecidableEq, Repr

/-- Fields the spec requires in the wire envelope. -/
def requiredEnvelopeFields : List String :=
  ["x402Version", "scheme", "network", "payload"]

/-- Modelled from the spec: `parsePaymentHeader`, the Payload Codec decode
used by the part_000 middleware.  Its implementation lives in that
variant's `./utils`, which is not part of this source snapshot; per §4.5
of the spec it must reject malformed base64, malformed JSON and envelopes
missing required fields, returning a typed parse error rather than
throwing. -/
def parsePaymentHeader (h : String) : ParseResult :=
  if ¬ base64WellFormed h then
    .err "Invalid payment header: malformed base64"
  else
    match jsonParse (b64DecodeLenient h) with
    | none => .err "Invalid payment header: malformed JSON"
    | some j =>
      if requiredEnvelopeFields.all fun f => (j.getField f).isSome then
        .ok (paymentOfJson j)
      else
        .err "Invalid payment header: missing required envelope fields"

/-! ## Payee requirement engines and middleware

Two variants exist in the repository.
* `src/unnamed/part_000`: validates the route config, converts the
  human-readable `amount` to atomic units via a live (cached) on-chain
  decimals lookup, fetches token metadata for the `extra` field, and wraps
  everything as `{x402Version: 1, accepts: [requirement]}`; the payment
  header is validated by `parsePaymentHeader` before settlement (400 on
  parse error).
* `src/sdk/payee.js`: parses a `price` string like `'$0.01'` with
  `config.decimals || 6`, performs no validation and no on-chain lookup,
  returns `{paymentRequirements: requirement}` bodies, and decodes the
  payment header inside the settlement `try` block (the catch returns 402). -/

/-- Token metadata (name, version) for the EIP-712 `extra` field. -/
structure TokenMeta where
  name : String
  version : String
deriving DecidableEq, Repr

/-- A payment requirement as built by the requirement engines. -/
structure Requirement where
  scheme : String
  network : String
  maxAmountRequired : String
  resource : String
  description : String
  mimeType : String
  payTo : String
  maxTimeoutSeconds : Nat
  asset : String
  extra : Option TokenMeta
deriving DecidableEq, Repr

/-- Shapes of the response bodies the middleware variants produce:
`x402` is `{x402Version, accepts, error?}` (part_000), `wrapped` is
`{paymentRequirements, error?}` (sdk), `errOnly` is a bare `{error}`
body (400 and 500 responses). -/
inductive RespBody where
  | x402 (x402Version : Nat) (accepts : List Requirement) (error : Option String)
  | wrapped (paymentRequirements : Requirement) (error : Option String)
  | errOnly (error : String)
deriving DecidableEq, Repr

/-- Whether a body has the `{x402Version: 1, accepts: [...]}` shape. -/
def RespBody.isAcceptsShape : RespBody → Bool
  | .x402 v _ _ => v == 1
  | _ => false

/-- Outcome of one middleware invocation: pass the request through to the
wrapped handler (carrying the settlement result destined for the
`X-PAYMENT-RESPONSE` header when a payment was settled), or answer with a
status and body. -/
inductive MwResult where
  | next (settlement : Option String)
  | respond (status : Nat) (body : RespBody)
deriving DecidableEq, Repr

/-- An inbound HTTP request as the middleware sees it: the path and the
`x-payment` header, if present. -/
structure Request where
  path : String
  paymentHeader : Option String
deriving DecidableEq, Repr

/-- Route configuration of the part_000 middleware:
`{amount, asset, network, description?, maxTimeoutSeconds?}`. -/
structure P0Config where
  amount : Option String
  asset : Option String
  network : Option String
  description : Option String
  maxTimeoutSeconds : Option Nat
deriving DecidableEq, Repr

/-- Route configuration of the sdk middleware:
`{price?, decimals?, network?, asset?, description?, maxAmountRequired?}`. -/
structure SdkConfig where
  price : Option String
  decimals : Option Nat
  network : Option String
  asset : Option String
  description : Option String
  maxAmountRequired : Option String
deriving DecidableEq, Repr

/-- The decimals oracle: `(asset, network) ↦ decimals`, `none` for any
failure (unknown network or failed RPC read). -/
abbrev DecimalsOracle := String → String → Option Nat

/-- The token metadata oracle used for the `extra` field; `getTokenMetadata`
falls back to `"Unknown Token"`/`"1"` internally, so it is total. -/
abbrev MetadataOracle := String → String → TokenMeta

/-- `toAtomicUnits` (src/unnamed/part_000 lines 90-93): fetch decimals,
then `ethers.parseUnits(amount.toString(), decimals).toString()`. -/
def toAtomicUnits (amount : String) (asset network : String)
    (decimalsOf : DecimalsOracle) : Except String Nat :=
  match decimalsOf asset network with
  | none => .error ("Failed to fetch decimals for token " ++ asset)
  | some d =>
    match parseUnits amount d with
    | none => .error ("invalid decimal value: " ++ amount)
    | some v => .ok v

/-- `buildPaymentRequirements` (src/unnamed/part_000 lines 385-426):
validates the config, converts the amount with live decimals, embeds the
token metadata in `extra`, and returns the full
`{x402Version: 1, accepts: [requirement]}` body. -/
def buildPaymentRequirementsP0 (payTo : String) (config : P0Config) (resource : String)
    (decimalsOf : DecimalsOracle) (metadataOf : MetadataOracle) :
    Except String RespBody :=
  if ¬ jsTruthyS config.amount then .error "amount is required in route config"
  else if ¬ jsTruthyS config.asset then
    .error "asset (token address) is required in route config"
  else if ¬ jsTruthyS config.network then .error "network is required in route config"
  else
    let amount := config.amount.getD ""
    let asset := config.asset.getD ""
    let network := config.network.getD ""
    match toAtomicUnits amount asset network decimalsOf with
    | .error e => .error e
    | .ok atomic =>
      let meta := metadataOf asset network
      let requirement : Requirement :=
        { scheme := "exact"
          network := network
          maxAmountRequired := toString atomic
          resource := resource
          description := jsOrStr config.description
            ("Payment of " ++ amount ++ " tokens for " ++ resource)
          mimeType := "application/json"
          payTo := payTo
          maxTimeoutSeconds := jsOrNat config.maxTimeoutSeconds 30
          asset := asset
          extra := some meta }
      .ok (.x402 1 [requirement] none)

/-- `getDefaultAsset` (src/sdk/payee.js lines 196-204). -/
def getDefaultAsset (network : String) : String :=
  if network = "base" then "0x833589fCD6eDb6E08f4c7C32D4f71b54bdA02913"
  else if network = "base-sepolia" then "0x036CbD53842c5426634e7929541eC2318f3dCF7e"
  else if network = "bsc" then "0x8AC76a51cc950d9822D68b83fE1Ad97B32Cd580d"
  else if network = "bsc-testnet" then "0x64544969ed7EBf5f083679233325356EbE738930"
  else "0x833589fCD6eDb6E08f4c7C32D4f71b54bdA02913"

/-- `Math.floor(priceNum * Math.pow(10, decimals)).toString()`; `none`
(NaN) renders as `"NaN"`. -/
def floorScaleString (price : Option ℚ) (decimals : Nat) : String :=
  match price with
  | none => "NaN"
  | some p => toString (Int.floor (p * (10 : ℚ) ^ decimals))

/-- `buildPaymentRequirements` (src/sdk/payee.js lines 168-190): parses
`config.price || '$0.01'` as a dollar string, scales by
`config.decimals || 6` — no on-chain lookup of the asset's decimals. -/
def buildPaymentRequirementsSdk (payTo : String) (config : SdkConfig)
    (resource : String) : Requirement :=
  let priceStr := jsOrStr config.price "$0.01"
  let priceNum := parseFloatQ (removeFirstDollar priceStr)
  let decimals := jsOrNat config.decimals 6
  let maxAmountRequired := floorScaleString priceNum decimals
  let network := jsOrStr config.network "base"
  let asset := jsOrStr config.asset (getDefaultAsset network)
  { scheme := "exact"
    network := network
    maxAmountRequired := maxAmountRequired
    resource := resource
    description := jsOrStr config.description ("Payment required for " ++ resource)
    mimeType := "application/json"
    payTo := payTo
    maxTimeoutSeconds := 30
    asset := asset
    extra := none }

/-- The `paymentRequirements` object sent to the facilitator's `/settle`. -/
structure SettleRequirements where
  scheme : String
  network : Option String
  maxAmountRequired : String
  asset : Option String
deriving DecidableEq, Repr

/-- The full `/settle` POST body `{x402Version, paymentPayload, paymentRequirements}`. -/
structure SettlePayload where
  x402Version : Nat
  paymentPayload : Payment
  paymentRequirements : SettleRequirements
deriving DecidableEq, Repr

/-- `settlePayment` payload construction (src/unnamed/part_000 lines
457-472; src/sdk/utils.js lines 489-502 is the same logic): the
requirements' `network` is `payment.network || config.network`. -/
def settlePayloadP0 (payment : Payment) (config : P0Config)
    (decimalsOf : DecimalsOracle) : Except String SettlePayload :=
  match toAtomicUnits (config.amount.getD "undefined") (config.asset.getD "")
      (config.network.getD "") decimalsOf with
  | .error e => .error e
  | .ok atomic =>
    .ok ⟨1, payment,
         ⟨"exact", jsStrOr payment.network config.network, toString atomic, config.asset⟩⟩

/-- `settlePayment` payload construction (src/sdk/payee.js lines 235-246):
`network: payment.network || config.network`,
`maxAmountRequired: config.maxAmountRequired || '0'`,
`asset: config.asset || getDefaultAsset(config.network)`. -/
def settlePayloadSdk (payment : Payment) (config : SdkConfig) : SettlePayload :=
  ⟨1, payment,
   ⟨"exact", jsStrOr payment.network config.network,
    jsOrStr config.maxAmountRequired "0",
    some (jsOrStr config.asset (getDefaultAsset (jsOrStr config.network "")))⟩⟩

/-- The facilitator `/settle` call: `.ok result` is the JSON-encoded
settlement result, `.error msg` the thrown settlement failure. -/
abbrev Facilitator := SettlePayload → Except String String

/-- The part_000 Express middleware (src/unnamed/part_000 lines 114-171).
Route match → header check (402 with requirements / 500 on build failure)
→ `parsePaymentHeader` (400 on parse error) → settle (pass through on
success, 402 with error-annotated requirements on failure). -/
def x402ExpressP0 (payTo : String) (routes : List (String × P0Config))
    (req : Request) (decimalsOf : DecimalsOracle) (metadataOf : MetadataOracle)
    (facilitator : Facilitator) : MwResult :=
  match findMatchingRoute req.path (compileRoutes routes) with
  | none => .next none
  | some route =>
    let config := route.config
    match req.paymentHeader with
    | none =>
      match buildPaymentRequirementsP0 payTo config req.path decimalsOf metadataOf with
      | .ok body => .respond 402 body
      | .error e => .respond 500 (.errOnly e)
    | some header =>
      match parsePaymentHeader header with
      | .err parseError => .respond 400 (.errOnly parseError)
      | .ok payment =>
        let settled : Except String String := do
          let payload ← settlePayloadP0 payment config decimalsOf
          facilitator payload
        match settled with
        | .ok result => .next (some result)
        | .error e =>
          match buildPaymentRequirementsP0 payTo config req.path decimalsOf metadataOf with
          | .ok (.x402 v accepts _) => .respond 402 (.x402 v accepts (some e))
          | .ok other => .respond 402 other
          | .error e2 => .respond 500 (.errOnly e2)

/-- The sdk Express middleware (src/sdk/payee.js lines 25-64).  No header
validation: the base64+JSON decode happens inside the settlement `try`, so
a malformed header takes the same catch as a settlement failure and
yields 402, and the 402 bodies wrap the requirement under a
`paymentRequirements` key without `x402Version`/`accepts`. -/
def x402ExpressSdk (payTo : String) (routes : List (String × SdkConfig))
    (req : Request) (facilitator : Facilitator) : MwResult :=
  match findMatchingRoute req.path (compileRoutes routes) with
  | none => .next none
  | some route =>
    let config := route.config
    match req.paymentHeader with
    | none =>
      .respond 402 (.wrapped (buildPaymentRequirementsSdk payTo config req.path) none)
    | some header =>
      match sdkDecodeHeader header with
      | none =>
        .respond 402 (.wrapped (buildPaymentRequirementsSdk payTo config req.path)
          (some jsonParseErrorMessage))
      | some payment =>
        match facilitator (settlePayloadSdk payment config) with
        | .ok result => .next (some result)
        | .error e =>
          .respond 402 (.wrapped (buildPaymentRequirementsSdk payTo config req.path)
            (some e))

/-- The HTTP status of a middleware result, when it responds. -/
def MwResult.statusOf : MwResult → Option Nat
  | .next _ => none
  | .respond s _ => some s

end X402

/-! # Theorems -/

namespace X402

/-! ## Helper lemmas -/

/-- A star-free character list is unchanged by the star rewrite. -/
theorem replaceStarAll_no_star (l : List Char) (h : l.all (· ≠ '*') = true) :
    replaceStarAll l = l := by
  induction l with
  | nil => rfl
  | cons c rest ih =>
    simp only [List.all_cons, Bool.and_eq_true, decide_eq_true_eq] at h
    simp [replaceStarAll, h.1, ih h.2]

/-- A colon-free character list is unchanged by the `:param` rewrite. -/
theorem replaceParamGo_no_colon (l : List Char) (h : l.all (· ≠ ':') = true) :
    replaceParamGo false l = l := by
  induction l with
  | nil => rfl
  | cons c rest ih =>
    simp only [List.all_cons, Bool.and_eq_true, decide_eq_true_eq] at h
    simp [replaceParamGo, h.1, ih h.2]

/-- A successful part_000 requirements build always has the
`{x402Version: 1, accepts: [r]}` shape with no error annotation. -/
theorem buildPaymentRequirementsP0_shape (payTo : String) (config : P0Config)
    (resource : String) (dec : DecimalsOracle) (meta : MetadataOracle) (b : RespBody)
    (h : buildPaymentRequirementsP0 payTo config resource dec meta = .ok b) :
    ∃ r, b = .x402 1 [r] none := by
  unfold buildPaymentRequirementsP0 at h
  repeat' split at h
  all_goals try simp_all
  · split at h
    · simp_all
    · injection h with h
      exact ⟨_, h.symm⟩

/-! ## C7: scheme prober classification -/

/-- C7: for every probe call outcome, the scheme prober classifies the
token as Native (EIP-3009) if and only if the read-only
`authorizationState` call with a throwaway nonce succeeds; any failure of
that call yields the Proxied classification, and the `isEIP3009` flag of
`getTokenDetailsEthers` agrees with the probe in the same way. -/
theorem C7_prober_native_iff_call_succeeds (r : ProbeCall) :
    (isEIP3009Token r = true ↔ ∃ b, r = Except.ok b) ∧
    (schemeOfProbe r = Scheme.native ↔ ∃ b, r = Except.ok b) ∧
    (schemeOfProbe r = Scheme.proxied ↔ ∃ e, r = Except.error e) ∧
    (∀ nameRes verRes d, getTokenDetailsEthers nameRes verRes r = Except.ok d →
       (d.isEIP3009 = true ↔ ∃ b, r = Except.ok b)) := by
  refine ⟨?_, ?_, ?_, ?_⟩
  · cases r <;> simp [isEIP3009Token]
  · cases r <;> simp [schemeOfProbe, isEIP3009Token]
  · cases r <;> simp [schemeOfProbe, isEIP3009Token]
  · intro nameRes verRes d hd
    cases nameRes with
    | error e => simp [getTokenDetailsEthers] at hd
    | ok n =>
      cases r <;>
        · simp only [getTokenDetailsEthers, Except.ok.injEq] at hd
          subst hd
          simp

/-- Witness for C7 at concrete probe outcomes. -/
theorem C7_prober_witness :
    schemeOfProbe (Except.ok true) = Scheme.native ∧
    schemeOfProbe (Except.error "execution reverted") = Scheme.proxied := by
  constructor
  · exact (C7_prober_native_iff_call_succeeds _).2.1.mpr ⟨true, rfl⟩
  · exact (C7_prober_native_iff_call_succeeds _).2.2.1.mpr ⟨"execution reverted", rfl⟩

/-! ## C6: Proxied-scheme typed data -/

/-- C6: on the Proxied (standard ERC-20) path, both authorization builders
sign exactly the domain `{name: "Megalith", version: "1", chainId,
verifyingContract: proxyAddress}` over the ordered `ERC20Payment` schema
`{token, from, to, value, nonce, validAfter, validBefore}` (see
`proxiedSchema`), with the message nonce equal to the value read from the
proxy contract's `getNonce`. -/
theorem C6_proxied_typed_data :
    (∀ (signer : SignerInfo) (reqs : PayerRequirements) (details : TokenDetails)
       (sg : String) (al sn : Nat) (rn : String) (now : Int)
       (td : TypedData) (pl : X402Payload),
       details.isEIP3009 = false →
       createPayment signer reqs details sg al sn rn now = .ok td pl →
       td = .proxied ⟨"Megalith", "1", signer.chainId, sg⟩ proxiedSchema
              ⟨reqs.asset, signer.address, reqs.payTo, reqs.maxAmountRequired.getD 0,
               sn, now - 60, now + 3600⟩ ∧
       pl.authorization.nonce = toString sn) ∧
    (∀ (chainId : Nat) (wa ta tk sg : String) (al sn v : Nat) (now : Int)
       (td : TypedData) (auth : Authorization),
       clientCreateERC20 chainId wa ta tk sg al sn v now = .ok (td, auth) →
       td = .proxied ⟨"Megalith", "1", chainId, sg⟩ proxiedSchema
              ⟨tk, wa, ta, v, sn, now - 60, now + 3600⟩ ∧
       auth.nonce = toString sn) := by
  constructor
  · intro signer reqs details sg al sn rn now td pl h3009 hok
    unfold createPayment at hok
    rw [h3009] at hok
    simp only [Bool.false_eq_true, if_false] at hok
    split at hok
    · exact absurd hok (by simp)
    · injection hok with h1 h2
      subst h1; subst h2
      exact ⟨rfl, rfl⟩
  · intro chainId wa ta tk sg al sn v now td auth hok
    unfold clientCreateERC20 at hok
    split at hok
    · exact absurd hok (by simp)
    · injection hok with h1
      injection h1 with h1 h2
      subst h1; subst h2
      exact ⟨rfl, rfl⟩

/-- Witness for C6: concrete Proxied-path builds in both variants. -/
theorem C6_proxied_witness :
    (∃ td pl,
      createPayment ⟨"base", 8453, "0xFrom"⟩ ⟨"0xToken", some 10000, "0xTo"⟩
          ⟨"Tether USD", "1", false⟩ "0xStargate" 20000 7 "0xrand" 1700000000 =
        CreatePaymentResult.ok td pl ∧
      td = .proxied ⟨"Megalith", "1", 8453, "0xStargate"⟩ proxiedSchema
             ⟨"0xToken", "0xFrom", "0xTo", 10000, 7, 1699999940, 1700003600⟩ ∧
      pl.authorization.nonce = "7") ∧
    (∃ td auth,
      clientCreateERC20 8453 "0xFrom" "0xTo" "0xToken" "0xStargate" 20000 7 10000
          1700000000 = .ok (td, auth) ∧
      td = .proxied ⟨"Megalith", "1", 8453, "0xStargate"⟩ proxiedSchema
             ⟨"0xToken", "0xFrom", "0xTo", 10000, 7, 1699999940, 1700003600⟩ ∧
      auth.nonce = "7") := by
  constructor
  · refine ⟨_, _, rfl, ?_, ?_⟩
    · have h := C6_proxied_typed_data.1 ⟨"base", 8453, "0xFrom"⟩ ⟨"0xToken", some 10000, "0xTo"⟩
        ⟨"Tether USD", "1", false⟩ "0xStargate" 20000 7 "0xrand" 1700000000 _ _ rfl rfl
      exact h.1
    · decide
  · refine ⟨_, _, rfl, ?_, ?_⟩
    · have h := C6_proxied_typed_data.2 8453 "0xFrom" "0xTo" "0xToken" "0xStargate"
        20000 7 10000 1700000000 _ _ rfl
      exact h.1
    · decide

/-! ## C8: validity window at construction time -/

/-- C8: every authorization, on either scheme path and in every embedded
variant (`createPayment` of src/sdk/payer.js, the `X402Client` builders of
src/sdk/payee.js, and the standalone signer script), is constructed with
`validAfter = now - 60` and `validBefore = now + 3600` (unix seconds), so
`validAfter < now < validBefore` holds at construction time. -/
theorem C8_validity_window :
    (∀ (signer : SignerInfo) (reqs : PayerRequirements) (details : TokenDetails)
       (sg : String) (al sn : Nat) (rn : String) (now : Int)
       (td : TypedData) (pl : X402Payload),
       createPayment signer reqs details sg al sn rn now = .ok td pl →
       pl.authorization.validAfter = now - 60 ∧ pl.authorization.validBefore = now + 3600 ∧
       pl.authorization.validAfter < now ∧ now < pl.authorization.validBefore) ∧
    (∀ (chainId : Nat) (wa ta tk tn tv : String) (v : Nat) (rn : String) (now : Int),
       ((clientCreateEIP3009 chainId wa ta tk tn tv v rn now).2.validAfter = now - 60 ∧
        (clientCreateEIP3009 chainId wa ta tk tn tv v rn now).2.validBefore = now + 3600 ∧
        (clientCreateEIP3009 chainId wa ta tk tn tv v rn now).2.validAfter < now ∧
        now < (clientCreateEIP3009 chainId wa ta tk tn tv v rn now).2.validBefore)) ∧
    (∀ (chainId : Nat) (wa ta tk sg : String) (al sn v : Nat) (now : Int)
       (td : TypedData) (auth : Authorization),
       clientCreateERC20 chainId wa ta tk sg al sn v now = .ok (td, auth) →
       auth.validAfter = now - 60 ∧ auth.validBefore = now + 3600 ∧
       auth.validAfter < now ∧ now < auth.validBefore) ∧
    (∀ (is3009 : Bool) (chainId : Nat) (wa ta tk sg tn tv : String) (v : Nat)
       (rn : String) (sn : Nat) (now : Int),
       ((signerScriptAuthorization is3009 chainId wa ta tk sg tn tv v rn sn now).2.validAfter =
          now - 60 ∧
        (signerScriptAuthorization is3009 chainId wa ta tk sg tn tv v rn sn now).2.validBefore =
          now + 3600 ∧
        (signerScriptAuthorization is3009 chainId wa ta tk sg tn tv v rn sn now).2.validAfter <
          now ∧
        now <
          (signerScriptAuthorization is3009 chainId wa ta tk sg tn tv v rn sn now).2.validBefore)) := by
  refine ⟨?_, ?_, ?_, ?_⟩
  · intro signer reqs details sg al sn rn now td pl hok
    unfold createPayment at hok
    split at hok
    · injection hok with h1 h2
      subst h2
      refine ⟨rfl, rfl, ?_, ?_⟩ <;> simp
    · dsimp only at hok
      split at hok
      · exact absurd hok (by simp)
      · injection hok with h1 h2
        subst h2
        refine ⟨rfl, rfl, ?_, ?_⟩ <;> simp
  · intro chainId wa ta tk tn tv v rn now
    refine ⟨rfl, rfl, ?_, ?_⟩ <;> simp [clientCreateEIP3009]
  · intro chainId wa ta tk sg al sn v now td auth hok
    unfold clientCreateERC20 at hok
    split at hok
    · exact absurd hok (by simp)
    · injection hok with h1
      injection h1 with h1 h2
      subst h2
      refine ⟨rfl, rfl, ?_, ?_⟩ <;> simp
  · intro is3009 chainId wa ta tk sg tn tv v rn sn now
    unfold signerScriptAuthorization
    split <;> (refine ⟨rfl, rfl, ?_, ?_⟩ <;> simp)

/-- Witness for C8: concrete builds at `now = 1700000000` in all variants. -/
theorem C8_validity_window_witness :
    (∃ td pl,
      createPayment ⟨"base", 8453, "0xFrom"⟩ ⟨"0xUSDC", some 10000, "0xTo"⟩
          ⟨"USD Coin", "2", true⟩ "0xStargate" 0 0 "0xrand" 1700000000 =
        CreatePaymentResult.ok td pl ∧
      pl.authorization.validAfter = 1699999940 ∧
      pl.authorization.validBefore = 1700003600) ∧
    ((clientCreateEIP3009 8453 "0xFrom" "0xTo" "0xUSDC" "USD Coin" "2" 10000 "0xrand"
        1700000000).2.validAfter = 1699999940) ∧
    (∃ td auth,
      clientCreateERC20 8453 "0xFrom" "0xTo" "0xToken" "0xStargate" 20000 7 10000
          1700000000 = .ok (td, auth) ∧
      auth.validAfter = 1699999940 ∧ auth.validBefore = 1700003600) ∧
    ((signerScriptAuthorization true 8453 "0xFrom" "0xTo" "0xToken" "0xStargate"
        "Tok" "1" 10000 "0xrand" 0 1700000000).2.validBefore = 1700003600) := by
  refine ⟨?_, ?_, ?_, ?_⟩
  · refine ⟨_, _, rfl, ?_, ?_⟩
    · have h := C8_validity_window.1 ⟨"base", 8453, "0xFrom"⟩ ⟨"0xUSDC", some 10000, "0xTo"⟩
        ⟨"USD Coin", "2", true⟩ "0xStargate" 0 0 "0xrand" 1700000000 _ _ rfl
      exact h.1.trans (by decide)
    · have h := C8_validity_window.1 ⟨"base", 8453, "0xFrom"⟩ ⟨"0xUSDC", some 10000, "0xTo"⟩
        ⟨"USD Coin", "2", true⟩ "0xStargate" 0 0 "0xrand" 1700000000 _ _ rfl
      exact h.2.1.trans (by decide)
  · have h := C8_validity_window.2.1 8453 "0xFrom" "0xTo" "0xUSDC" "USD Coin" "2"
      10000 "0xrand" 1700000000
    exact h.1.trans (by decide)
  · refine ⟨_, _, rfl, ?_, ?_⟩
    · have h := C8_validity_window.2.2.1 8453 "0xFrom" "0xTo" "0xToken" "0xStargate"
        20000 7 10000 1700000000 _ _ rfl
      exact h.1.trans (by decide)
    · have h := C8_validity_window.2.2.1 8453 "0xFrom" "0xTo" "0xToken" "0xStargate"
        20000 7 10000 1700000000 _ _ rfl
      exact h.2.1.trans (by decide)
  · have h := C8_validity_window.2.2.2 true 8453 "0xFrom" "0xTo" "0xToken" "0xStargate"
      "Tok" "1" 10000 "0xrand" 0 1700000000
    exact h.2.1.trans (by decide)

/-! ## C1: spending ceiling enforcement -/

/-- C1: whenever the 402 response's `maxAmountRequired`, converted with the
asset's on-chain decimals, exceeds the configured ceiling, both payer
orchestrators raise the ceiling error carrying the requested amount and
the ceiling (`ceilingErrorMessage` renders the message text from both),
invoke `createPayment` zero times, and issue no retry (exactly one
outbound attempt in total). -/
theorem C1_spending_ceiling (maxAmount : ℚ) (decimalsOf : String → Nat)
    (r1 r2 : HttpResponse) (fuel : Nat)
    (h402 : r1.status = 402)
    (hover : requestedAmount decimalsOf r1.requirements > maxAmount) :
    fetchWithPayment maxAmount decimalsOf r1 r2 =
      ⟨.ceilingError (requestedAmount decimalsOf r1.requirements) maxAmount, 1, 0⟩ ∧
    (fetchWithPayment maxAmount decimalsOf r1 r2).outcome.errMessage =
      some (ceilingErrorMessage (requestedAmount decimalsOf r1.requirements) maxAmount) ∧
    x402AxiosModel maxAmount decimalsOf (fun _ => r1) fuel 0 0 =
      ⟨.ceilingError (requestedAmount decimalsOf r1.requirements) maxAmount, 1, 0⟩ := by
  have hf : fetchWithPayment maxAmount decimalsOf r1 r2 =
      ⟨.ceilingError (requestedAmount decimalsOf r1.requirements) maxAmount, 1, 0⟩ := by
    unfold fetchWithPayment
    rw [h402]
    simp [hover]
  refine ⟨hf, by rw [hf]; rfl, ?_⟩
  unfold x402AxiosModel
  dsimp only
  rw [h402]
  simp [hover]

/-- Witness for C1: a 402 demanding 1.00 units of a 6-decimal asset against
a 0.50 ceiling. -/
theorem C1_spending_ceiling_witness :
    requestedAmount (fun _ => 6) ⟨"0xUSDC", some 1000000, "0xPayee"⟩ > (1 / 2 : ℚ) ∧
    fetchWithPayment (1 / 2) (fun _ => 6) ⟨402, ⟨"0xUSDC", some 1000000, "0xPayee"⟩⟩
        ⟨200, ⟨"0xUSDC", none, ""⟩⟩ =
      ⟨.ceilingError (requestedAmount (fun _ => 6) ⟨"0xUSDC", some 1000000, "0xPayee"⟩)
         (1 / 2), 1, 0⟩ :=
  ⟨by norm_num [requestedAmount],
   (C1_spending_ceiling (1 / 2) (fun _ => 6) ⟨402, ⟨"0xUSDC", some 1000000, "0xPayee"⟩⟩
     ⟨200, ⟨"0xUSDC", none, ""⟩⟩ 0 rfl (by norm_num [requestedAmount])).1⟩

/-! ## C2: at most two outbound attempts -/

/-- C2: `fetchWithPayment` (the `x402Fetch` wrapper) does issue at most two
outbound attempts per logical call and returns the second response
verbatim; but the `x402Axios` wrapper's retry dispatches through its own
response interceptor again, so a server that answers 402 to every attempt
(here with an affordable 0.01-unit requirement against the default 0.10
ceiling) receives a third attempt (and a third signed payment) — the model
run with fuel 2 already counts 3 outbound attempts, refuting the
at-most-two claim for the axios variant. -/
theorem C2_retry_bound_violated_by_axios :
    (∀ (maxAmount : ℚ) (decimalsOf : String → Nat) (r1 r2 : HttpResponse),
       (fetchWithPayment maxAmount decimalsOf r1 r2).fetchCalls ≤ 2 ∧
       ((fetchWithPayment maxAmount decimalsOf r1 r2).fetchCalls = 2 →
         (fetchWithPayment maxAmount decimalsOf r1 r2).outcome = .success r2)) ∧
    (x402AxiosModel (1 / 10) (fun _ => 6)
        (fun _ => ⟨402, ⟨"0xUSDC", some 10000, "0xPayee"⟩⟩) 2 0 0).attempts = 3 ∧
    2 < (x402AxiosModel (1 / 10) (fun _ => 6)
        (fun _ => ⟨402, ⟨"0xUSDC", some 10000, "0xPayee"⟩⟩) 2 0 0).attempts ∧
    (x402AxiosModel (1 / 10) (fun _ => 6)
        (fun _ => ⟨402, ⟨"0xUSDC", some 10000, "0xPayee"⟩⟩) 2 0 0).payments = 3 := by
  have hrun : x402AxiosModel (1 / 10) (fun _ => 6)
      (fun _ => ⟨402, ⟨"0xUSDC", some 10000, "0xPayee"⟩⟩) 2 0 0 =
      ⟨.fuelExhausted, 3, 3⟩ := by
    have hle : ¬ requestedAmount (fun _ => 6) ⟨"0xUSDC", some 10000, "0xPayee"⟩ > (1 / 10 : ℚ) := by
      norm_num [requestedAmount]
    unfold x402AxiosModel
    dsimp only
    norm_num [hle]
    unfold x402AxiosModel
    dsimp only
    norm_num [hle]
    unfold x402AxiosModel
    dsimp only
    norm_num [hle]
  refine ⟨?_, by rw [hrun], by rw [hrun]; norm_num, by rw [hrun]⟩
  intro maxAmount decimalsOf r1 r2
  unfold fetchWithPayment
  dsimp only
  split
  · exact ⟨by simp, by simp⟩
  · split
    · exact ⟨by simp, by simp⟩
    · exact ⟨by simp, fun _ => rfl⟩

/-! ## C10: unescaped regex metacharacters in route patterns -/

/-- C10: route compilation rewrites only stars and `:param` segments and
copies every other character into the regex source unescaped (first
conjunct), so a dot in a configured pattern stays an active
metacharacter: the pattern `/api/v1.0` compiles to `^/api/v1.0$`, and the
path `/api/v1X0` — which differs from the pattern at exactly the dot
position — is nevertheless matched by `findMatchingRoute` and treated as
a paid route. -/
theorem C10_route_pattern_metacharacters :
    (∀ p : String, p.toList.all (fun c => c ≠ '*' ∧ c ≠ ':') = true →
       regexSourceOf p = "^" ++ p ++ "$") ∧
    regexSourceOf "/api/v1.0" = "^/api/v1.0$" ∧
    ("/api/v1X0" : String) ≠ "/api/v1.0" ∧
    countDiffs "/api/v1.0" "/api/v1X0" = 1 ∧
    (findMatchingRoute "/api/v1X0"
        (compileRoutes
          [("/api/v1.0",
            (⟨some "0.01", some "0xTOK", some "base", none, none⟩ : P0Config))])).map
      (fun r => r.pattern) = some "/api/v1.0" := by
  refine ⟨?_, by decide, by decide, by decide, by decide⟩
  intro p hp
  have hstar : p.toList.all (· ≠ '*') = true := by
    rw [List.all_eq_true] at hp ⊢
    intro c hc
    have h2 := hp c hc
    simp only [decide_eq_true_eq] at h2
    simpa using h2.1
  have hcolon : p.toList.all (· ≠ ':') = true := by
    rw [List.all_eq_true] at hp ⊢
    intro c hc
    have h2 := hp c hc
    simp only [decide_eq_true_eq] at h2
    simpa using h2.2
  have hmk : String.mk p.toList = p := by
    cases p
    rfl
  unfold regexSourceOf
  rw [replaceStarAll_no_star _ hstar, replaceParamGo_no_colon _ hcolon, hmk]

/-- Witness for C10's universal part at the pattern `/api/v1.0`. -/
theorem C10_route_pattern_witness :
    regexSourceOf "/api/v1.0" = "^" ++ "/api/v1.0" ++ "$" :=
  C10_route_pattern_metacharacters.1 "/api/v1.0" (by decide)

/-! ## C9: envelope network vs route network at settlement -/

/-- C9 counterexample: an envelope whose `network` field is present but
equal to `""` is overridden by the route's configured network —
`payment.network || config.network` tests JS truthiness, not presence —
so the claim "whenever that field is present" is false as stated. -/
theorem C9_counterexample_empty_network :
    (⟨some ""⟩ : Payment).network ≠ none ∧
    settlePayloadP0 ⟨some ""⟩ ⟨some "0.01", some "0xTOK", some "base", none, none⟩
        (fun _ _ => some 6) =
      .ok ⟨1, ⟨some ""⟩, ⟨"exact", some "base", "10000", some "0xTOK"⟩⟩ ∧
    (some "base" : Option String) ≠ some "" := by
  refine ⟨by decide, by rfl, by decide⟩

/-- C9 (amended): in every settlement payload builder, the
`paymentRequirements.network` sent to the facilitator is the envelope's
`network` whenever that field is present and truthy (non-empty), and falls
back to the route's configured network when the envelope omits it (or
carries an empty string, which JS `||` treats as absent). -/
theorem C9_envelope_network_precedence :
    (∀ (payment : Payment) (config : P0Config) (dec : DecimalsOracle)
       (pl : SettlePayload) (s : String),
       (payment.network = some s → s ≠ "" →
         settlePayloadP0 payment config dec = .ok pl →
         pl.paymentRequirements.network = some s) ∧
       (payment.network = none →
         settlePayloadP0 payment config dec = .ok pl →
         pl.paymentRequirements.network = config.network)) ∧
    (∀ (payment : Payment) (config : SdkConfig) (s : String),
       (payment.network = some s → s ≠ "" →
         (settlePayloadSdk payment config).paymentRequirements.network = some s) ∧
       (payment.network = none →
         (settlePayloadSdk payment config).paymentRequirements.network = config.network)) := by
  constructor
  · intro payment config dec pl s
    constructor
    · intro hn hs hok
      unfold settlePayloadP0 at hok
      split at hok
      · exact absurd hok (by simp)
      · injection hok with h
        subst h
        simp [jsStrOr, jsTruthyS, hn, hs]
    · intro hn hok
      unfold settlePayloadP0 at hok
      split at hok
      · exact absurd hok (by simp)
      · injection hok with h
        subst h
        simp [jsStrOr, jsTruthyS, hn]
  · intro payment config s
    constructor
    · intro hn hs
      unfold settlePayloadSdk
      simp [jsStrOr, jsTruthyS, hn, hs]
    · intro hn
      unfold settlePayloadSdk
      simp [jsStrOr, jsTruthyS, hn]

/-- Witness for C9 at a concrete envelope declaring `network: "bsc"`
against a route configured for `base`, and a concrete envelope omitting
the field. -/
theorem C9_envelope_network_witness :
    (∃ pl, settlePayloadP0 ⟨some "bsc"⟩ ⟨some "0.01", some "0xTOK", some "base", none, none⟩
        (fun _ _ => some 6) = .ok pl ∧ pl.paymentRequirements.network = some "bsc") ∧
    (settlePayloadSdk ⟨none⟩ ⟨none, none, some "base", some "0xTOK", none, some "10000"⟩
       ).paymentRequirements.network = some "base" := by
  constructor
  · refine ⟨_, rfl, ?_⟩
    exact (C9_envelope_network_precedence.1 ⟨some "bsc"⟩
      ⟨some "0.01", some "0xTOK", some "base", none, none⟩ (fun _ _ => some 6) _ "bsc").1
      rfl (by decide) rfl
  · exact (C9_envelope_network_precedence.2 ⟨none⟩
      ⟨none, none, some "base", some "0xTOK", none, some "10000"⟩ "").2 rfl

/-! ## C5: amount conversion and decimals lookup -/

/-- C5 counterexample: the sdk requirement engine
(`buildPaymentRequirementsSdk`, src/sdk/payee.js lines 168-190) takes no
decimals oracle at all — it scales the price by `config.decimals || 6`.
For a route whose asset has 18 on-chain decimals (so that the live-lookup
conversion of 0.01 is 10^16 atomic units, as `parseUnits` shows), it still
emits `"10000"`, the assumed-6-decimals value, refuting "never an assumed
18 or 6" for this engine. -/
theorem C5_counterexample_sdk_assumes_six :
    (buildPaymentRequirementsSdk "0xPayee"
        ⟨some "$0.01", none, some "base", some "0xTOK18", none, none⟩
        "/r").maxAmountRequired = "10000" ∧
    parseUnits "0.01" 18 = some 10000000000000000 ∧
    ("10000" : String) ≠ toString (10000000000000000 : Nat) := by
  refine ⟨?_, by decide, by decide⟩
  have d0 : digitsToNat ['0'] = 0 := by decide
  have d01 : digitsToNat ['0', '1'] = 1 := by decide
  have h2 : parseFloatQ "0.01" =
      some ((digitsToNat ['0'] : ℚ) + (digitsToNat ['0', '1'] : ℚ) / (10 : ℚ) ^ 2) := rfl
  rw [d0, d01] at h2
  have h1 : removeFirstDollar (jsOrStr (some "$0.01") "$0.01") = "0.01" := by decide
  unfold buildPaymentRequirementsSdk
  dsimp only
  rw [h1, h2]
  unfold floorScaleString
  dsimp only
  have h3 : Int.floor ((((0 : Nat) : ℚ) + ((1 : Nat) : ℚ) / (10 : ℚ) ^ 2) *
      (10 : ℚ) ^ jsOrNat none 6) = 10000 := by
    have h6 : jsOrNat none 6 = 6 := rfl
    rw [h6]
    push_cast
    norm_num
  rw [h3]
  decide

/-- C5 (amended): the part_000 requirement engine converts the
human-readable amount to atomic units with the decimals returned by the
live (cached) on-chain lookup; in particular amount "0.01" with a
6-decimal asset yields `maxAmountRequired = "10000"` (witness).  The
sdk/payee.js engine instead scales by `config.decimals || 6` with no
lookup (counterexample). -/
theorem C5_requirement_engine_conversion (payTo resource amount asset network : String)
    (d atomic : Nat) (config : P0Config) (dec : DecimalsOracle) (meta : MetadataOracle)
    (ha : config.amount = some amount) (ha' : amount ≠ "")
    (hs : config.asset = some asset) (hs' : asset ≠ "")
    (hn : config.network = some network) (hn' : network ≠ "")
    (hd : dec asset network = some d)
    (hp : parseUnits amount d = some atomic) :
    ∃ r, buildPaymentRequirementsP0 payTo config resource dec meta =
           .ok (.x402 1 [r] none) ∧
         r.maxAmountRequired = toString atomic ∧ r.asset = asset ∧ r.network = network := by
  unfold buildPaymentRequirementsP0 toAtomicUnits
  rw [ha, hs, hn]
  simp only [Option.getD_some, jsTruthyS]
  rw [hd]
  dsimp only
  rw [hp]
  have hA : (amount != "") = true := by simpa using ha'
  have hS : (asset != "") = true := by simpa using hs'
  have hN : (network != "") = true := by simpa using hn'
  simp only [hA, hS, hN, not_true, Bool.true_eq_false, if_false, ite_false]
  exact ⟨_, rfl, rfl, rfl, rfl⟩

/-- Witness for C5: route config `{amount: "0.01", asset: USDC,
network: "base"}` with a decimals lookup returning 6 produces
`maxAmountRequired = "10000"`. -/
theorem C5_requirement_engine_witness :
    ∃ r, buildPaymentRequirementsP0 "0xPayee"
           ⟨some "0.01", some "0xUSDC", some "base", none, none⟩ "/api/premium"
           (fun _ _ => some 6) (fun _ _ => ⟨"USD Coin", "2"⟩) =
         .ok (.x402 1 [r] none) ∧
       r.maxAmountRequired = "10000" := by
  obtain ⟨r, h1, h2, h3, h4⟩ := C5_requirement_engine_conversion "0xPayee" "/api/premium"
    "0.01" "0xUSDC" "base" 6 10000 ⟨some "0.01", some "0xUSDC", some "base", none, none⟩
    (fun _ _ => some 6) (fun _ _ => ⟨"USD Coin", "2"⟩)
    rfl (by decide) rfl (by decide) rfl (by decide) rfl (by decide)
  exact ⟨r, h1, h2.trans (by decide)⟩

/-! ## C4: 402 body shape -/

/-- C4 counterexample: the sdk Express middleware's 402 for an absent
payment header wraps the requirement under a `paymentRequirements` key
with no `x402Version` and no `accepts` array, so its body does not have
the `{x402Version: 1, accepts: [...]}` shape the claim asserts for every
402. -/
theorem C4_counterexample_sdk_wrapped_shape :
    x402ExpressSdk "0xPayee"
        [("/api/premium",
          (⟨some "$0.01", none, some "base", some "0xUSDC", none, none⟩ : SdkConfig))]
        ⟨"/api/premium", none⟩ (fun _ => .ok "settled") =
      .respond 402
        (.wrapped
          (buildPaymentRequirementsSdk "0xPayee"
            ⟨some "$0.01", none, some "base", some "0xUSDC", none, none⟩ "/api/premium")
          none) ∧
    RespBody.isAcceptsShape
      (.wrapped
        (buildPaymentRequirementsSdk "0xPayee"
          ⟨some "$0.01", none, some "base", some "0xUSDC", none, none⟩ "/api/premium")
        none) = false :=
  ⟨rfl, rfl⟩

/-- C4 (amended): every 402 the part_000 middleware produces has the body
shape `{x402Version: 1, accepts: [requirement]}` — with no `error` field
when the payment header was absent, and with an added `error` string when
it was present (settlement failed).  (The sdk/payee.js variant instead
responds with `{paymentRequirements: ...}` bodies, see the
counterexample.) -/
theorem C4_x402_body_shape (payTo : String) (routes : List (String × P0Config))
    (req : Request) (dec : DecimalsOracle) (meta : MetadataOracle) (fac : Facilitator)
    (body : RespBody) :
    (req.paymentHeader = none →
      x402ExpressP0 payTo routes req dec meta fac = .respond 402 body →
      ∃ r, body = .x402 1 [r] none) ∧
    (∀ h, req.paymentHeader = some h →
      x402ExpressP0 payTo routes req dec meta fac = .respond 402 body →
      ∃ r e, body = .x402 1 [r] (some e)) := by
  constructor
  · intro hh hrun
    unfold x402ExpressP0 at hrun
    split at hrun
    · exact absurd hrun (by simp)
    · rw [hh] at hrun
      dsimp only at hrun
      split at hrun
      · rename_i b hb
        injection hrun with h1 h2
        subst h2
        exact buildPaymentRequirementsP0_shape _ _ _ _ _ _ hb
      · exact absurd hrun (by simp)
  · intro h hh hrun
    unfold x402ExpressP0 at hrun
    split at hrun
    · exact absurd hrun (by simp)
    · rw [hh] at hrun
      dsimp only at hrun
      split at hrun
      · exact absurd hrun (by simp)
      · split at hrun
        · exact absurd hrun (by simp)
        · split at hrun
          · rename_i v accepts unused hb
            injection hrun with h1 h2
            subst h2
            obtain ⟨r, hr⟩ := buildPaymentRequirementsP0_shape _ _ _ _ _ _ hb
            injection hr with hv hacc
            subst hv
            subst hacc
            exact ⟨r, _, rfl⟩
          · rename_i other hne heq
            obtain ⟨r, hr⟩ := buildPaymentRequirementsP0_shape _ _ _ _ _ _ heq
            exact (hne 1 [r] none hr).elim
          · exact absurd hrun (by simp)

/-- Witness for C4: a concrete absent-header request on a paid route;
the 402 body is exactly `{x402Version: 1, accepts: [requirement]}`. -/
theorem C4_x402_body_shape_witness :
    ∃ r, x402ExpressP0 "0xPayee"
           [("/api/premium",
             (⟨some "0.01", some "0xUSDC", some "base", none, none⟩ : P0Config))]
           ⟨"/api/premium", none⟩ (fun _ _ => some 6) (fun _ _ => ⟨"USD Coin", "2"⟩)
           (fun _ => .ok "settled") =
         .respond 402 (.x402 1 [r] none) := by
  have hrun : x402ExpressP0 "0xPayee"
      [("/api/premium",
        (⟨some "0.01", some "0xUSDC", some "base", none, none⟩ : P0Config))]
      ⟨"/api/premium", none⟩ (fun _ _ => some 6) (fun _ _ => ⟨"USD Coin", "2"⟩)
      (fun _ => .ok "settled") =
      .respond 402
        (.x402 1
          [{ scheme := "exact", network := "base", maxAmountRequired := "10000",
             resource := "/api/premium",
             description := "Payment of 0.01 tokens for /api/premium",
             mimeType := "application/json", payTo := "0xPayee",
             maxTimeoutSeconds := 30, asset := "0xUSDC",
             extra := some ⟨"USD Coin", "2"⟩ }]
          none) := by decide
  obtain ⟨r, hr⟩ := (C4_x402_body_shape "0xPayee"
    [("/api/premium", ⟨some "0.01", some "0xUSDC", some "base", none, none⟩)]
    ⟨"/api/premium", none⟩ (fun _ _ => some 6) (fun _ _ => ⟨"USD Coin", "2"⟩)
    (fun _ => .ok "settled") _).1 rfl hrun
  exact ⟨r, by rw [hrun, hr]⟩

/-! ## C3: malformed payment header -/

/-- C3 counterexample: in the sdk Express middleware the header is decoded
inside the settlement `try`, so a malformed `X-PAYMENT` header (here
`"!!!"`, which decodes to the empty string and fails `JSON.parse`) is
answered with 402 — not with the 400 the claim asserts. -/
theorem C3_counterexample_sdk_402_on_malformed :
    x402ExpressSdk "0xPayee"
        [("/api/premium",
          (⟨some "$0.01", none, some "base", some "0xUSDC", none, none⟩ : SdkConfig))]
        ⟨"/api/premium", some "!!!"⟩ (fun _ => .ok "settled") =
      .respond 402
        (.wrapped
          (buildPaymentRequirementsSdk "0xPayee"
            ⟨some "$0.01", none, some "base", some "0xUSDC", none, none⟩ "/api/premium")
          (some jsonParseErrorMessage)) ∧
    (x402ExpressSdk "0xPayee"
        [("/api/premium",
          (⟨some "$0.01", none, some "base", some "0xUSDC", none, none⟩ : SdkConfig))]
        ⟨"/api/premium", some "!!!"⟩ (fun _ => .ok "settled")).statusOf = some 402 ∧
    (some 402 : Option Nat) ≠ some 400 :=
  ⟨rfl, rfl, by decide⟩

/-- C3 (amended): the part_000 middleware validates the payment header
before settlement; whenever `parsePaymentHeader` rejects the present
header (malformed base64, malformed JSON or missing envelope fields), the
response is status 400 carrying the decode-error message — not 402 and
not 500. -/
theorem C3_decode_error_400 (payTo : String) (routes : List (String × P0Config))
    (req : Request) (dec : DecimalsOracle) (meta : MetadataOracle) (fac : Facilitator)
    (route : CompiledRoute P0Config) (h msg : String)
    (hfind : findMatchingRoute req.path (compileRoutes routes) = some route)
    (hheader : req.paymentHeader = some h)
    (hparse : parsePaymentHeader h = .err msg) :
    x402ExpressP0 payTo routes req dec meta fac = .respond 400 (.errOnly msg) := by
  unfold x402ExpressP0
  rw [hfind, hheader]
  dsimp only
  rw [hparse]

/-- Witness for C3 at the malformed header `"!!!"` (invalid base64). -/
theorem C3_decode_error_400_witness :
    x402ExpressP0 "0xPayee"
        [("/api/premium",
          (⟨some "0.01", some "0xUSDC", some "base", none, none⟩ : P0Config))]
        ⟨"/api/premium", some "!!!"⟩ (fun _ _ => some 6) (fun _ _ => ⟨"USD Coin", "2"⟩)
        (fun _ => .ok "settled") =
      .respond 400 (.errOnly "Invalid payment header: malformed base64") := by
  cases hF : findMatchingRoute "/api/premium"
      (compileRoutes
        [("/api/premium",
          (⟨some "0.01", some "0xUSDC", some "base", none, none⟩ : P0Config))]) with
  | none =>
    have : (findMatchingRoute "/api/premium"
        (compileRoutes
          [("/api/premium",
            (⟨some "0.01", some "0xUSDC", some "base", none, none⟩ : P0Config))])).isSome =
        true := by decide
    rw [hF] at this
    exact absurd this (by simp)
  | some route =>
    exact C3_decode_error_400 "0xPayee" _ ⟨"/api/premium", some "!!!"⟩ _ _ _ route "!!!" _
      hF rfl (by decide)

end X402
